import Mathlib

/-!
Verification of the deepchecks outlier-scanner and tabular-context logic.

The development shallowly embeds the core of
`deepchecks/nlp/checks/data_integrity/text_property_outliers.py`,
`deepchecks/tabular/context.py` and
`deepchecks/tabular/utils/task_inference.py`:
numeric values become `ℚ`, numpy arrays become lists, exceptions become
`Option`/`Except`/`Bool` guards, and the random sampling inside
`_DummyModel._validate_data` becomes an explicit parameter.
-/

namespace Deepchecks

/-- One property's values as returned by the dataset: either a single scalar
per sample, or a variable-length list of scalars per sample
(`TextPropertyOutliers.run_logic`). -/
inductive PropValues where
  | scalars : List ℚ → PropValues
  | lists : List (List ℚ) → PropValues

/-- `run_logic` normalization:
`if not isinstance(values[0], list): values = [[x] for x in values]`. -/
def normalize : PropValues → List (List ℚ)
  | .scalars v => v.map (fun x => [x])
  | .lists v => v

/-- `np.cumsum` over a list, written with a running accumulator. -/
def cumsumFrom (acc : ℕ) : List ℕ → List ℕ
  | [] => []
  | x :: xs => (acc + x) :: cumsumFrom (acc + x) xs

/-- `values_lengths_cumsum = np.cumsum(np.array([len(v) for v in values]))`. -/
def cumsum_lengths (values : List (List ℚ)) : List ℕ :=
  cumsumFrom 0 (values.map List.length)

/-- Index of the first element of a list satisfying a predicate; embeds
`np.argwhere(cond)[0][0]`, with `none` modelling the `IndexError` raised
when no element satisfies the condition. -/
def first_index (p : ℕ → Bool) : List ℕ → Option ℕ
  | [] => none
  | x :: xs => if p x then some 0 else (first_index p xs).map (· + 1)

/-- `_sample_index_from_flatten_index(cumsum_lengths, flatten_index)`:
`np.argwhere(cumsum_lengths > flatten_index)[0][0]`. -/
def sample_index_from_flatten_index (cumsum_lengths : List ℕ) (flatten_index : ℕ) :
    Option ℕ :=
  first_index (fun c => flatten_index < c) cumsum_lengths

theorem first_index_eq_some {p : ℕ → Bool} {l : List ℕ} {i : ℕ} :
    first_index p l = some i ↔
      i < l.length ∧ p (l.getD i 0) = true ∧ ∀ j, j < i → p (l.getD j 0) = false := by
  induction l generalizing i with
  | nil => simp [first_index]
  | cons x xs ih =>
    by_cases hx : p x
    · simp only [first_index, hx, if_pos, List.length_cons]
      constructor
      · intro h
        have : i = 0 := by simpa using h.symm
        subst this
        exact ⟨Nat.succ_pos _, by simpa using hx, fun j hj => absurd hj (Nat.not_lt_zero j)⟩
      · rintro ⟨-, -, hmin⟩
        rcases Nat.eq_zero_or_pos i with h0 | h0
        · simp [h0]
        · have := hmin 0 h0
          simp [hx] at this
    · simp only [first_index, hx, if_neg, Bool.false_eq_true, not_false_iff, ite_false]
      constructor
      · intro h
        rcases Option.map_eq_some'.mp h with ⟨k, hk, hki⟩
        rcases ih.mp hk with ⟨hlen, hp, hmin⟩
        subst hki
        refine ⟨by simpa using Nat.succ_lt_succ hlen, by simpa using hp, ?_⟩
        intro j hj
        cases j with
        | zero => simpa using hx
        | succ m => simpa using hmin m (Nat.lt_of_succ_lt_succ hj)
      · rintro ⟨hlen, hp, hmin⟩
        cases i with
        | zero => simp at hp; exact absurd hp hx
        | succ m =>
          have hk : first_index p xs = some m :=
            ih.mpr ⟨Nat.lt_of_succ_lt_succ (by simpa using hlen), by simpa using hp,
              fun j hj => by simpa using hmin (j + 1) (Nat.succ_lt_succ hj)⟩
          simp [hk]

theorem first_index_eq_none {p : ℕ → Bool} {l : List ℕ} :
    first_index p l = none ↔ ∀ x ∈ l, p x = false := by
  induction l with
  | nil => simp [first_index]
  | cons x xs ih =>
    by_cases hx : p x
    · simp [first_index, hx]
    · simp [first_index, hx, ih]

theorem cumsumFrom_length (acc : ℕ) (l : List ℕ) :
    (cumsumFrom acc l).length = l.length := by
  induction l generalizing acc with
  | nil => rfl
  | cons x xs ih => simp [cumsumFrom, ih]

theorem cumsumFrom_getD (acc : ℕ) (l : List ℕ) (i : ℕ) (h : i < l.length) :
    (cumsumFrom acc l).getD i 0 = acc + (l.take (i + 1)).sum := by
  induction l generalizing acc i with
  | nil => simp at h
  | cons x xs ih =>
    cases i with
    | zero => simp [cumsumFrom]
    | succ n =>
      have hn : n < xs.length := by simpa using Nat.lt_of_succ_lt_succ h
      simp only [cumsumFrom, List.getD_cons_succ, List.take_succ_cons, List.sum_cons]
      rw [ih (acc + x) n hn]
      omega

theorem sum_take_mono (L : List ℕ) : ∀ i j, i ≤ j → (L.take i).sum ≤ (L.take j).sum := by
  induction L with
  | nil => simp
  | cons x xs ih =>
    intro i j hij
    cases i with
    | zero => simp
    | succ n =>
      cases j with
      | zero => omega
      | succ m =>
        simp only [List.take_succ_cons, List.sum_cons]
        exact Nat.add_le_add_left (ih n m (Nat.le_of_succ_le_succ hij)) x

/-- C2: for any per-sample length list `L` and flat index `f < sum L`,
`_sample_index_from_flatten_index` applied to `cumsum L` returns the unique
sample index `i` with `sum L[0..i) ≤ f < sum L[0..i]`, which is also the
smallest `i` with `cumsum[i] > f`. -/
theorem C2_sample_index_correct (L : List ℕ) (f : ℕ) (hf : f < L.sum) :
    ∃ i, sample_index_from_flatten_index (cumsumFrom 0 L) f = some i ∧
      (L.take i).sum ≤ f ∧ f < (L.take (i + 1)).sum ∧
      (∀ j, (L.take j).sum ≤ f → f < (L.take (j + 1)).sum → j = i) ∧
      f < (cumsumFrom 0 L).getD i 0 ∧
      (∀ j, j < i → (cumsumFrom 0 L).getD j 0 ≤ f) := by
  have hLpos : 0 < L.length := by
    cases L with
    | nil => simp at hf
    | cons x xs => simp
  -- the scan cannot return `none`: the last cumulative sum exceeds `f`
  have hlast : f < (cumsumFrom 0 L).getD (L.length - 1) 0 := by
    rw [cumsumFrom_getD 0 L (L.length - 1) (by omega)]
    have : L.length - 1 + 1 = L.length := by omega
    rw [this, List.take_length]
    omega
  obtain ⟨i, hi⟩ : ∃ i, sample_index_from_flatten_index (cumsumFrom 0 L) f = some i := by
    cases hres : sample_index_from_flatten_index (cumsumFrom 0 L) f with
    | some i => exact ⟨i, rfl⟩
    | none =>
      exfalso
      have hall := first_index_eq_none.mp hres
      have hmem : (cumsumFrom 0 L).getD (L.length - 1) 0 ∈ cumsumFrom 0 L := by
        have hlt : L.length - 1 < (cumsumFrom 0 L).length := by
          rw [cumsumFrom_length]; omega
        rw [List.getD_eq_getElem _ _ hlt]
        exact List.getElem_mem hlt
      have := hall _ hmem
      simp only [decide_eq_false_iff_not, not_lt] at this
      omega
  rcases first_index_eq_some.mp hi with ⟨hilen, hip, himin⟩
  rw [cumsumFrom_length] at hilen
  have hip' : f < (cumsumFrom 0 L).getD i 0 := by simpa using hip
  have himin' : ∀ j, j < i → (cumsumFrom 0 L).getD j 0 ≤ f := by
    intro j hj
    have := himin j hj
    simpa using this
  have hupper : f < (L.take (i + 1)).sum := by
    have := hip'
    rwa [cumsumFrom_getD 0 L i hilen, Nat.zero_add] at this
  have hlower : (L.take i).sum ≤ f := by
    cases i with
    | zero => simp
    | succ m =>
      have := himin' m (Nat.lt_succ_self m)
      rwa [cumsumFrom_getD 0 L m (by omega), Nat.zero_add] at this
  refine ⟨i, hi, hlower, hupper, ?_, hip', himin'⟩
  intro j hj1 hj2
  by_contra hne
  rcases Nat.lt_or_ge j i with hlt | hge
  · -- j < i: then cumsum[j] ≤ f, i.e. sum (take (j+1)) ≤ f, contradicting hj2
    have := himin' j hlt
    rw [cumsumFrom_getD 0 L j (by omega), Nat.zero_add] at this
    omega
  · have hgt : i < j := lt_of_le_of_ne hge (fun h => hne h.symm)
    have : (L.take (i + 1)).sum ≤ (L.take j).sum := sum_take_mono L (i + 1) j hgt
    omega

/-- Witness for C2 at `L = [2, 0, 3]`, `f = 2`:
the mapper returns sample index 2 (`cumsum = [2, 2, 5]`). -/
theorem C2_sample_index_correct_witness :
    (2 : ℕ) < ([2, 0, 3] : List ℕ).sum ∧
      ∃ i, sample_index_from_flatten_index (cumsumFrom 0 [2, 0, 3]) 2 = some i ∧
        (([2, 0, 3] : List ℕ).take i).sum ≤ 2 ∧ 2 < (([2, 0, 3] : List ℕ).take (i + 1)).sum ∧
        (∀ j, (([2, 0, 3] : List ℕ).take j).sum ≤ 2 →
          2 < (([2, 0, 3] : List ℕ).take (j + 1)).sum → j = i) ∧
        2 < (cumsumFrom 0 [2, 0, 3]).getD i 0 ∧
        (∀ j, j < i → (cumsumFrom 0 [2, 0, 3]).getD j 0 ≤ 2) :=
  ⟨by decide, C2_sample_index_correct [2, 0, 3] 2 (by decide)⟩

/-- `values_arr = np.hstack(values).astype(float)`: the flattened value array. -/
def values_arr (values : List (List ℚ)) : List ℚ := values.flatten

/-- Ascending stable sort of outlier positions by their value, embedding
`outliers[np.apply_along_axis(lambda i: sort_arr[i], 0, outliers).argsort()]`. -/
def sort_by_value (arr : List ℚ) (idxs : List ℕ) : List ℕ :=
  List.insertionSort (fun i j => arr.getD i 0 ≤ arr.getD j 0) idxs

/-- `top_outliers = np.argwhere(values_arr > upper_limit).squeeze(axis=1)`,
then sorted ascending by value. -/
def top_outliers (arr : List ℚ) (upper_limit : ℚ) : List ℕ :=
  sort_by_value arr
    ((List.range arr.length).filter (fun i => upper_limit < arr.getD i 0))

/-- `bottom_outliers = np.argwhere(values_arr < lower_limit).squeeze(axis=1)`,
then sorted ascending by value. -/
def bottom_outliers (arr : List ℚ) (lower_limit : ℚ) : List ℕ :=
  sort_by_value arr
    ((List.range arr.length).filter (fun i => arr.getD i 0 < lower_limit))

/-- All flagged flat positions, bottom-then-top, as in
`np.concatenate((bottom_outliers, top_outliers))`. -/
def outlier_flat_indices (arr : List ℚ) (lower_limit upper_limit : ℚ) : List ℕ :=
  bottom_outliers arr lower_limit ++ top_outliers arr upper_limit

theorem mem_sort_by_value {arr : List ℚ} {idxs : List ℕ} {i : ℕ} :
    i ∈ sort_by_value arr idxs ↔ i ∈ idxs :=
  (List.perm_insertionSort (fun i j => arr.getD i 0 ≤ arr.getD j 0) idxs).mem_iff

/-- C1: a flat position is flagged by the scanner iff its value is strictly
above the upper bound or strictly below the lower bound; a value equal to
either bound is never flagged. -/
theorem C1_outliers_strict (arr : List ℚ) (lower upper : ℚ) (i : ℕ)
    (hlu : lower ≤ upper) :
    (i ∈ outlier_flat_indices arr lower upper ↔
        i < arr.length ∧ (upper < arr.getD i 0 ∨ arr.getD i 0 < lower)) ∧
    (arr.getD i 0 = upper ∨ arr.getD i 0 = lower →
        i ∉ outlier_flat_indices arr lower upper) := by
  have hmem : i ∈ outlier_flat_indices arr lower upper ↔
      i < arr.length ∧ (upper < arr.getD i 0 ∨ arr.getD i 0 < lower) := by
    simp only [outlier_flat_indices, List.mem_append, bottom_outliers, top_outliers,
      mem_sort_by_value, List.mem_filter, List.mem_range, decide_eq_true_eq]
    tauto
  refine ⟨hmem, ?_⟩
  rintro (heq | heq) hin
  · rcases (hmem.mp hin).2 with h | h
    · exact absurd h (by rw [heq]; exact lt_irrefl upper)
    · rw [heq] at h; exact absurd (lt_of_le_of_lt hlu h) (lt_irrefl lower)
  · rcases (hmem.mp hin).2 with h | h
    · rw [heq] at h; exact absurd (lt_of_lt_of_le h hlu) (lt_irrefl upper)
    · exact absurd h (by rw [heq]; exact lt_irrefl lower)

/-- Witness for C1 at `arr = [0, 10, 3]`, bounds `(1, 5)`, position `1`
(value 10 is strictly above the upper bound, hence flagged). -/
theorem C1_outliers_strict_witness :
    (1 : ℚ) ≤ 5 ∧
      ((1 ∈ outlier_flat_indices [0, 10, 3] 1 5 ↔
          1 < ([0, 10, 3] : List ℚ).length ∧
            ((5 : ℚ) < ([0, 10, 3] : List ℚ).getD 1 0 ∨
              ([0, 10, 3] : List ℚ).getD 1 0 < 1)) ∧
        (([0, 10, 3] : List ℚ).getD 1 0 = 5 ∨ ([0, 10, 3] : List ℚ).getD 1 0 = 1 →
          1 ∉ outlier_flat_indices [0, 10, 3] 1 5)) :=
  ⟨by norm_num, C1_outliers_strict [0, 10, 3] 1 5 1 (by norm_num)⟩

/-- `min(values_arr)`, defined as 0 on the empty list where numpy raises. -/
def arr_min : List ℚ → ℚ
  | [] => 0
  | x :: xs => xs.foldl min x

/-- `max(values_arr)`, defined as 0 on the empty list where numpy raises. -/
def arr_max : List ℚ → ℚ
  | [] => 0
  | x :: xs => xs.foldl max x

/-- `result[name]['lower_limit'] = max(lower_limit, min(values_arr))`. -/
def reported_lower_limit (arr : List ℚ) (lower_limit : ℚ) : ℚ :=
  max lower_limit (arr_min arr)

/-- `result[name]['upper_limit'] = min(upper_limit, max(values_arr))`. -/
def reported_upper_limit (arr : List ℚ) (upper_limit : ℚ) : ℚ :=
  min upper_limit (arr_max arr)

theorem foldl_min_le_init (xs : List ℚ) (a : ℚ) : xs.foldl min a ≤ a := by
  induction xs generalizing a with
  | nil => simp
  | cons y ys ih =>
    simp only [List.foldl_cons]
    exact le_trans (ih (min a y)) (min_le_left a y)

theorem foldl_min_le_mem (xs : List ℚ) (a x : ℚ) (hx : x ∈ xs) : xs.foldl min a ≤ x := by
  induction xs generalizing a with
  | nil => simp at hx
  | cons y ys ih =>
    simp only [List.foldl_cons]
    rcases List.mem_cons.mp hx with rfl | hx'
    · exact le_trans (foldl_min_le_init ys (min a x)) (min_le_right a x)
    · exact ih (min a y) hx'

theorem le_foldl_max_init (xs : List ℚ) (a : ℚ) : a ≤ xs.foldl max a := by
  induction xs generalizing a with
  | nil => simp
  | cons y ys ih =>
    simp only [List.foldl_cons]
    exact le_trans (le_max_left a y) (ih (max a y))

theorem mem_le_foldl_max (xs : List ℚ) (a x : ℚ) (hx : x ∈ xs) : x ≤ xs.foldl max a := by
  induction xs generalizing a with
  | nil => simp at hx
  | cons y ys ih =>
    simp only [List.foldl_cons]
    rcases List.mem_cons.mp hx with rfl | hx'
    · exact le_trans (le_max_right a x) (le_foldl_max_init ys (max a x))
    · exact ih (max a y) hx'

theorem arr_min_le_mem (v : List ℚ) (x : ℚ) (hx : x ∈ v) : arr_min v ≤ x := by
  cases v with
  | nil => simp at hx
  | cons y ys =>
    rcases List.mem_cons.mp hx with rfl | hx'
    · exact foldl_min_le_init ys x
    · exact foldl_min_le_mem ys y x hx'

theorem mem_le_arr_max (v : List ℚ) (x : ℚ) (hx : x ∈ v) : x ≤ arr_max v := by
  cases v with
  | nil => simp at hx
  | cons y ys =>
    rcases List.mem_cons.mp hx with rfl | hx'
    · exact le_foldl_max_init ys x
    · exact mem_le_foldl_max ys y x hx'

/-- C3: the record reports `lower_limit = max(lower, min(values))` and
`upper_limit = min(upper, max(values))`, so the reported lower bound is never
below the observed minimum and the reported upper bound never above the
observed maximum. -/
theorem C3_reported_limits_clipped (arr : List ℚ) (lower upper x : ℚ) (hx : x ∈ arr) :
    reported_lower_limit arr lower = max lower (arr_min arr) ∧
    reported_upper_limit arr upper = min upper (arr_max arr) ∧
    arr_min arr ≤ reported_lower_limit arr lower ∧
    reported_upper_limit arr upper ≤ arr_max arr ∧
    arr_min arr ≤ x ∧ x ≤ arr_max arr :=
  ⟨rfl, rfl, le_max_right _ _, min_le_right _ _, arr_min_le_mem arr x hx,
    mem_le_arr_max arr x hx⟩

/-- Witness for C3 at `arr = [2, 7, 4]`, bounds `(0, 100)`, member `7`. -/
theorem C3_reported_limits_clipped_witness :
    (7 : ℚ) ∈ ([2, 7, 4] : List ℚ) ∧
      (reported_lower_limit [2, 7, 4] 0 = max 0 (arr_min [2, 7, 4]) ∧
        reported_upper_limit [2, 7, 4] 100 = min 100 (arr_max [2, 7, 4]) ∧
        arr_min [2, 7, 4] ≤ reported_lower_limit [2, 7, 4] 0 ∧
        reported_upper_limit [2, 7, 4] 100 ≤ arr_max [2, 7, 4] ∧
        arr_min [2, 7, 4] ≤ 7 ∧ (7 : ℚ) ≤ arr_max [2, 7, 4]) :=
  ⟨by norm_num, C3_reported_limits_clipped [2, 7, 4] 0 100 7 (by norm_num)⟩

/-- One entry of the `result` dict built by `run_logic`: either the textual
placeholder recorded on `NotEnoughSamplesError`, or the numeric outlier
record `{indices, lower_limit, upper_limit}`. -/
inductive PropResult where
  | message : String → PropResult
  | record : List ℕ → ℚ → ℚ → PropResult
deriving DecidableEq

/-- The per-property body of `TextPropertyOutliers.run_logic`. `est` stands
for `iqr_outliers_range` (whose own code is outside the examined sources);
`.error ()` is its `NotEnoughSamplesError`. `index` is `dataset.index`. -/
def scan_property (est : List ℚ → Except Unit (ℚ × ℚ)) (index : List ℕ)
    (pv : PropValues) : PropResult :=
  let values := normalize pv
  let cum := cumsum_lengths values
  let arr := values_arr values
  match est arr with
  | .error _ => .message "Not enough non-null samples to calculate outliers."
  | .ok (lower_limit, upper_limit) =>
      .record
        ((outlier_flat_indices arr lower_limit upper_limit).map
          (fun oi => index.getD ((sample_index_from_flatten_index cum oi).getD 0) 0))
        (reported_lower_limit arr lower_limit)
        (reported_upper_limit arr upper_limit)

/-- The property loop of `run_logic`: every numeric property yields exactly
one entry of `result`. -/
def run_logic (est : List ℚ → Except Unit (ℚ × ℚ)) (index : List ℕ)
    (properties : List (String × PropValues)) : List (String × PropResult) :=
  properties.map (fun p => (p.1, scan_property est index p.2))

/-- C5: a property whose values make the range estimator signal
insufficient samples gets the textual placeholder entry, the scan is total
(no exception escapes) and still yields one entry per property, every other
property included. -/
theorem C5_insufficient_samples_contained (est : List ℚ → Except Unit (ℚ × ℚ))
    (index : List ℕ) (props : List (String × PropValues)) (name : String)
    (pv : PropValues) (hmem : (name, pv) ∈ props)
    (herr : est (values_arr (normalize pv)) = .error ()) :
    (name, PropResult.message "Not enough non-null samples to calculate outliers.")
        ∈ run_logic est index props ∧
    (run_logic est index props).length = props.length ∧
    (∀ q ∈ props, (q.1, scan_property est index q.2) ∈ run_logic est index props) := by
  refine ⟨?_, List.length_map _ _, ?_⟩
  · have : scan_property est index pv =
        .message "Not enough non-null samples to calculate outliers." := by
      simp [scan_property, herr]
    have h := List.mem_map_of_mem (fun p => (p.1, scan_property est index p.2)) hmem
    simpa [run_logic, this] using h
  · intro q hq
    exact List.mem_map_of_mem (fun p => (p.1, scan_property est index p.2)) hq

/-- Witness for C5: an estimator that rejects short arrays, a two-property
dataset where property "a" has too few values and property "b" succeeds. -/
theorem C5_insufficient_samples_contained_witness :
    (("a", PropValues.scalars [1]) ∈
        [("a", PropValues.scalars [1]), ("b", PropValues.scalars [3, 4, 5])]) ∧
    ((fun arr : List ℚ => if arr.length < 2 then Except.error () else Except.ok ((0 : ℚ), (9 : ℚ)))
        (values_arr (normalize (PropValues.scalars [1]))) = .error ()) ∧
    (("a", PropResult.message "Not enough non-null samples to calculate outliers.")
        ∈ run_logic
            (fun arr => if arr.length < 2 then Except.error () else Except.ok ((0 : ℚ), (9 : ℚ)))
            [0, 1, 2]
            [("a", PropValues.scalars [1]), ("b", PropValues.scalars [3, 4, 5])] ∧
      (run_logic
          (fun arr => if arr.length < 2 then Except.error () else Except.ok ((0 : ℚ), (9 : ℚ)))
          [0, 1, 2]
          [("a", PropValues.scalars [1]), ("b", PropValues.scalars [3, 4, 5])]).length =
        ([("a", PropValues.scalars [1]), ("b", PropValues.scalars [3, 4, 5])]).length ∧
      (∀ q ∈ [("a", PropValues.scalars [1]), ("b", PropValues.scalars [3, 4, 5])],
        (q.1, scan_property
            (fun arr => if arr.length < 2 then Except.error () else Except.ok ((0 : ℚ), (9 : ℚ)))
            [0, 1, 2] q.2)
          ∈ run_logic
              (fun arr => if arr.length < 2 then Except.error () else Except.ok ((0 : ℚ), (9 : ℚ)))
              [0, 1, 2]
              [("a", PropValues.scalars [1]), ("b", PropValues.scalars [3, 4, 5])])) :=
  ⟨by simp, by simp [normalize, values_arr],
    C5_insufficient_samples_contained _ _ _ "a" (PropValues.scalars [1]) (by simp)
      (by simp [normalize, values_arr])⟩

/-- `deepchecks.tabular.utils.task_type.TaskType`. -/
inductive TaskType where
  | binary : TaskType
  | multiclass : TaskType
  | regression : TaskType
deriving DecidableEq

/-- `task_inference.infer_task_type`, dispatching on the result of
`get_possible_classes` (`None` for regression, the class list otherwise):
`if classes is None: REGRESSION elif len(classes) == 2: BINARY else: MULTICLASS`. -/
def infer_task_type (classes : Option (List ℤ)) : TaskType :=
  match classes with
  | none => .regression
  | some cs => if cs.length = 2 then .binary else .multiclass

/-- C10: a resolved class list with exactly one class yields multiclass,
never binary and never regression; regression is returned exactly when the
class list is `None`. -/
theorem C10_single_class_multiclass (cs : List ℤ) (h : cs.length = 1) :
    infer_task_type (some cs) = .multiclass ∧
      infer_task_type (some cs) ≠ .binary ∧
      infer_task_type (some cs) ≠ .regression ∧
      (∀ oc : Option (List ℤ), infer_task_type oc = .regression ↔ oc = none) := by
  have hne : cs.length ≠ 2 := by omega
  refine ⟨by simp [infer_task_type, hne], by simp [infer_task_type, hne], by
    simp [infer_task_type, hne], ?_⟩
  intro oc
  cases oc with
  | none => simp [infer_task_type]
  | some l =>
    simp only [infer_task_type]
    by_cases hl : l.length = 2 <;> simp [hl]

/-- Witness for C10 at the singleton class list `[7]`. -/
theorem C10_single_class_multiclass_witness :
    ([7] : List ℤ).length = 1 ∧
      (infer_task_type (some [7]) = .multiclass ∧
        infer_task_type (some [7]) ≠ .binary ∧
        infer_task_type (some [7]) ≠ .regression ∧
        (∀ oc : Option (List ℤ), infer_task_type oc = .regression ↔ oc = none)) :=
  ⟨by decide, C10_single_class_multiclass [7] (by decide)⟩

/-- Modelled from the spec: `infer_task_type_by_class_number`, imported by
`context.py` but not present under the examined sources — "class-count-based
inference from resolved class list (2 classes → binary, >2 → multiclass)". -/
def infer_task_type_by_class_number (n : ℕ) : TaskType :=
  if n = 2 then .binary else .multiclass

/-- Modelled from the spec: the composition of `get_all_labels` and
`infer_task_type_by_labels`, imported by `context.py` but not present under
the examined sources — "inference from observed label distribution": a train
dataset with 2 observed label classes resolves to binary, 3 or more to
multiclass, and no labels at all to regression. -/
def infer_task_type_by_labels (labels : List ℤ) : TaskType :=
  if labels = [] then .regression
  else infer_task_type_by_class_number labels.dedup.length

/-- The task-type precedence of `Context.__init__`:
`if train and train.label_type: task_type = train.label_type
elif model_classes: task_type = infer_task_type_by_class_number(len(model_classes))
else: task_type = infer_task_type_by_labels(get_all_labels(...))`.
`declared` is `train.label_type` (`none` when absent or falsy), `model_classes`
the resolved class list (`some []` models an explicit empty, falsy list). -/
def context_resolve_task_type (declared : Option TaskType)
    (model_classes : Option (List ℤ)) (labels : List ℤ) : TaskType :=
  match declared with
  | some t => t
  | none =>
    match model_classes with
    | some mc =>
        if mc.isEmpty then infer_task_type_by_labels labels
        else infer_task_type_by_class_number mc.length
    | none => infer_task_type_by_labels labels

/-- C4: task-type precedence — a declared label type wins; otherwise a
non-empty resolved class list decides by size (2 → binary, >2 → multiclass);
otherwise the observed label distribution decides (2 observed classes →
binary, 3+ → multiclass, no labels → regression). -/
theorem C4_task_type_precedence (declared : Option TaskType)
    (model_classes : Option (List ℤ)) (labels : List ℤ) :
    (∀ t, declared = some t → context_resolve_task_type declared model_classes labels = t) ∧
    (∀ mc, declared = none → model_classes = some mc → mc ≠ [] →
        context_resolve_task_type declared model_classes labels =
            infer_task_type_by_class_number mc.length ∧
        (mc.length = 2 → context_resolve_task_type declared model_classes labels = .binary) ∧
        (2 < mc.length →
            context_resolve_task_type declared model_classes labels = .multiclass)) ∧
    (declared = none → model_classes = none →
        (labels.dedup.length = 2 →
            context_resolve_task_type declared model_classes labels = .binary) ∧
        (3 ≤ labels.dedup.length →
            context_resolve_task_type declared model_classes labels = .multiclass) ∧
        (labels = [] →
            context_resolve_task_type declared model_classes labels = .regression)) := by
  refine ⟨?_, ?_, ?_⟩
  · rintro t rfl
    rfl
  · rintro mc rfl rfl hne
    have hemp : mc.isEmpty = false := by
      cases mc with
      | nil => exact absurd rfl hne
      | cons a l => rfl
    refine ⟨by simp [context_resolve_task_type, hemp], ?_, ?_⟩
    · intro h2
      simp [context_resolve_task_type, hemp, infer_task_type_by_class_number, h2]
    · intro h2
      have : mc.length ≠ 2 := by omega
      simp [context_resolve_task_type, hemp, infer_task_type_by_class_number, this]
  · rintro rfl rfl
    refine ⟨?_, ?_, ?_⟩
    · intro h2
      have hne : labels ≠ [] := by
        intro h; subst h; simp at h2
      simp [context_resolve_task_type, infer_task_type_by_labels, hne,
        infer_task_type_by_class_number, h2]
    · intro h3
      have hne : labels ≠ [] := by
        intro h; subst h; simp at h3
      have h2 : labels.dedup.length ≠ 2 := by omega
      simp [context_resolve_task_type, infer_task_type_by_labels, hne,
        infer_task_type_by_class_number, h2]
    · rintro rfl
      rfl

/-- Witness for C4: observed labels `[0, 1, 0]` with no declared type, no
class list and no model resolve to binary. -/
theorem C4_task_type_precedence_witness :
    (([0, 1, 0] : List ℤ).dedup.length = 2 →
        context_resolve_task_type none none [0, 1, 0] = .binary) ∧
      context_resolve_task_type none none [0, 1, 0] = .binary :=
  ⟨((C4_task_type_precedence none none [0, 1, 0]).2.2 rfl rfl).1,
    ((C4_task_type_precedence none none [0, 1, 0]).2.2 rfl rfl).1 (by decide)⟩

/-- Python's `sorted` on a list of integers: a stable ascending sort. -/
def sorted_py (l : List ℤ) : List ℤ :=
  List.insertionSort (fun a b => a ≤ b) l

/-- The unsorted-`model_classes` guard of `Context.__init__`:
`if model_classes and sorted(model_classes) != model_classes: raise ...`
(`true` iff `DeepchecksValueError('Received unsorted model_classes ...')`
is raised). -/
def raises_unsorted_model_classes (model_classes : List ℤ) : Bool :=
  !model_classes.isEmpty && !(sorted_py model_classes == model_classes)

/-- The empty-`model_classes` guard of `Context.__init__`:
`if model_classes and len(model_classes) == 0: raise ...`
(`true` iff `DeepchecksValueError('Received empty model_classes')` is
raised; an empty python list is falsy, so the conjunction short-circuits). -/
def raises_empty_model_classes (model_classes : List ℤ) : Bool :=
  !model_classes.isEmpty && (model_classes.length == 0)

/-- C8 counterexample: `[0, 0, 1]` is not strictly sorted ascending, yet the
construction guard does not raise, refuting the claim as stated. -/
theorem C8_counterexample_duplicates :
    ¬ List.Sorted (fun a b => a < b) ([0, 0, 1] : List ℤ) ∧
      raises_unsorted_model_classes [0, 0, 1] = false := by
  constructor
  · intro h
    have := List.rel_of_sorted_cons h 0 (by simp)
    exact lt_irrefl 0 this
  · rfl

/-- C8 (amended): the guard raises exactly on a nonempty `model_classes`
that is not sorted in non-decreasing order; `[0, 1, 2]` is accepted. -/
theorem C8_unsorted_model_classes (mc : List ℤ) :
    (raises_unsorted_model_classes mc = true ↔
        mc ≠ [] ∧ ¬ List.Sorted (fun a b => a ≤ b) mc) ∧
      raises_unsorted_model_classes [0, 1, 2] = false ∧
      raises_unsorted_model_classes [2, 1, 0] = true := by
  refine ⟨?_, rfl, rfl⟩
  simp only [raises_unsorted_model_classes, Bool.and_eq_true, Bool.not_eq_true',
    List.isEmpty_eq_false, beq_iff_eq, Bool.not_eq_eq_eq_not, Bool.not_true,
    beq_eq_false_iff_ne, ne_eq]
  constructor
  · rintro ⟨hne, hns⟩
    refine ⟨by simpa using hne, ?_⟩
    intro hs
    exact hns (List.Sorted.insertionSort_eq hs)
  · rintro ⟨hne, hns⟩
    refine ⟨by simpa using hne, ?_⟩
    intro he
    have hs := List.sorted_insertionSort (fun a b => a ≤ b) mc
    rw [show List.insertionSort (fun a b => a ≤ b) mc = sorted_py mc from rfl, he] at hs
    exact hns hs

/-- C9: the empty-`model_classes` guard can never fire — for every list,
in particular the explicitly supplied empty one, no error is raised,
because an empty list is falsy in the conjunction. -/
theorem C9_empty_model_classes_guard_unreachable (mc : List ℤ) :
    raises_empty_model_classes mc = false ∧ raises_empty_model_classes [] = false := by
  refine ⟨?_, rfl⟩
  cases mc with
  | nil => rfl
  | cons a l => simp [raises_empty_model_classes]

/-- The index-collision remap of `_DummyModel.__init__`:
`if set(train.data.index) & set(test.data.index):` rewrite both index
spaces with role prefixes and warn. Returns the resulting train index,
test index, and whether the warning was emitted (construction always
succeeds — the branch returns a value in every case). -/
def dummy_model_remap_indexes (train_index test_index : List String) :
    List String × List String × Bool :=
  if train_index.any (fun x => test_index.contains x) then
    (train_index.map (fun x => "train-" ++ x),
     test_index.map (fun x => "test-" ++ x), true)
  else (train_index, test_index, false)

/-- C6: intersecting train/test index sets are rewritten with `train-` /
`test-` role prefixes together with a warning, and construction still
returns; disjoint index sets are left unchanged with no warning. -/
theorem C6_index_collision_remap (train_index test_index : List String) :
    ((∃ x, x ∈ train_index ∧ x ∈ test_index) →
        dummy_model_remap_indexes train_index test_index =
          (train_index.map (fun x => "train-" ++ x),
           test_index.map (fun x => "test-" ++ x), true)) ∧
    ((∀ x, x ∈ train_index → x ∉ test_index) →
        dummy_model_remap_indexes train_index test_index =
          (train_index, test_index, false)) := by
  constructor
  · rintro ⟨x, hx1, hx2⟩
    have h : train_index.any (fun x => test_index.contains x) = true :=
      List.any_eq_true.mpr ⟨x, hx1, by simpa using hx2⟩
    unfold dummy_model_remap_indexes
    rw [h]
    simp
  · intro hdisj
    have h : train_index.any (fun x => test_index.contains x) = false := by
      rw [List.any_eq_false]
      intro x hx
      simpa using hdisj x hx
    unfold dummy_model_remap_indexes
    rw [h]
    simp

/-- Witness for C6 at `train_index = ["0", "1"]`, `test_index = ["1", "2"]`
(shared index `"1"`) and at the disjoint pair `["0"]`, `["5"]`. -/
theorem C6_index_collision_remap_witness :
    dummy_model_remap_indexes ["0", "1"] ["1", "2"] =
        (["train-0", "train-1"], ["test-1", "test-2"], true) ∧
      dummy_model_remap_indexes ["0"] ["5"] = (["0"], ["5"], false) :=
  ⟨(C6_index_collision_remap ["0", "1"] ["1", "2"]).1 ⟨"1", by simp, by simp⟩,
    (C6_index_collision_remap ["0"] ["5"]).2 (by intro x hx; simp at hx; simp [hx])⟩

/-- A feature table or query frame: rows of feature values keyed by row
index (what `_DummyModel._validate_data` consults of a `pd.DataFrame`). -/
def Frame : Type := List (ℕ × List ℚ)

/-- `feature_df.loc[idxs].equals(data.loc[idxs])`: row-wise comparison at a
list of indices. -/
def rows_equal_at (t d : List (ℕ × List ℚ)) (idxs : List ℕ) : Bool :=
  idxs.all (fun i => t.lookup i == d.lookup i)

/-- `_DummyModel._validate_data`, with the random draws made explicit:
the query `data` stands for `data.sample(min(100, len(data)))` (equal to
the whole query whenever it has at most 100 rows) and `sub_sample` models
`np.unique(np.random.choice(data.index, 30))`, a sub-sample of the query
indices. Returns `false` exactly when the `DeepchecksValueError`
("Data that has not been seen before passed for inference with static
predictions") is raised: the first fitted feature table whose index set
contains every queried index is compared row-wise on the sub-sample; a
mismatch there, or no containing table at all, raises. -/
def validate_data (feature_df_list : List (List (ℕ × List ℚ)))
    (data : List (ℕ × List ℚ)) (sub_sample : List ℕ) : Bool :=
  match feature_df_list.find? (fun t => data.all (fun r => (t.lookup r.1).isSome)) with
  | none => false
  | some t => rows_equal_at t data sub_sample

/-- `self.predictions.loc[data.index]`: pandas label indexing with a
list-like key raises `KeyError` as soon as any queried label is missing
from the series' index; otherwise it yields the stored values in query
order. -/
def predictions_loc (predictions : List (ℕ × ℤ)) (idxs : List ℕ) :
    Except String (List ℤ) :=
  if idxs.all (fun i => (predictions.lookup i).isSome) then
    .ok (idxs.map (fun i => (predictions.lookup i).getD 0))
  else .error "KeyError"

/-- `_DummyModel._predict`: when `validate_data_on_predict` is set, first
run `_validate_data` (its `DeepchecksValueError` is the unseen-data error),
then return `self.predictions.loc[data.index].to_numpy()`, whose label
lookup itself raises `KeyError` on indices missing from the stored
prediction series. -/
def dummy_model_predict (feature_df_list : List (List (ℕ × List ℚ)))
    (predictions : List (ℕ × ℤ)) (validate_data_on_predict : Bool)
    (data : List (ℕ × List ℚ)) (sub_sample : List ℕ) :
    Except String (List ℤ) :=
  if validate_data_on_predict then
    if validate_data feature_df_list data sub_sample then
      predictions_loc predictions (data.map Prod.fst)
    else
      .error "Data that has not been seen before passed for inference with static predictions"
  else predictions_loc predictions (data.map Prod.fst)

/-- C7 counterexample: the claim says that with `validate_data_on_predict`
disabled, predicting on a fabricated row index does not raise — but the
lookup `predictions.loc[data.index]` itself raises `KeyError` at the unseen
index 2, so the call raises even with validation disabled. -/
theorem C7_counterexample_disabled_still_raises :
    dummy_model_predict [[((0 : ℕ), [(1 : ℚ)]), (1, [2])]] [(0, 5), (1, 6)] false
      [(2, [9])] [] = .error "KeyError" := by
  rfl

/-- C7 (amended): with validation enabled, a query containing a row index
unknown to every fitted feature table raises the unseen-data error; with
validation disabled the unseen-data error is never raised, though the
prediction lookup still raises `KeyError` when the query holds an index
missing from the stored predictions; and a query whose indices all belong
to the stored prediction index returns exactly the stored predictions —
with validation disabled, or enabled whenever validation passes. -/
theorem C7_dummy_model_predict_amended
    (feature_df_list : List (List (ℕ × List ℚ))) (predictions : List (ℕ × ℤ))
    (data : List (ℕ × List ℚ)) (sub_sample : List ℕ) :
    (∀ i r, (i, r) ∈ data → (∀ t ∈ feature_df_list, t.lookup i = none) →
        dummy_model_predict feature_df_list predictions true data sub_sample =
          .error
            "Data that has not been seen before passed for inference with static predictions") ∧
    (∀ e, dummy_model_predict feature_df_list predictions false data sub_sample =
        .error e → e = "KeyError") ∧
    ((data.map Prod.fst).all (fun i => (predictions.lookup i).isSome) = true →
        dummy_model_predict feature_df_list predictions false data sub_sample =
          .ok ((data.map Prod.fst).map (fun i => (predictions.lookup i).getD 0))) ∧
    (validate_data feature_df_list data sub_sample = true →
        (data.map Prod.fst).all (fun i => (predictions.lookup i).isSome) = true →
        dummy_model_predict feature_df_list predictions true data sub_sample =
          .ok ((data.map Prod.fst).map (fun i => (predictions.lookup i).getD 0))) := by
  refine ⟨?_, ?_, ?_, ?_⟩
  · intro i r hmem hunseen
    have hval : validate_data feature_df_list data sub_sample = false := by
      have hfind : feature_df_list.find?
          (fun t => data.all (fun r => (t.lookup r.1).isSome)) = none := by
        rw [List.find?_eq_none]
        intro t ht
        simp only [List.all_eq_true, not_forall]
        refine ⟨(i, r), hmem, ?_⟩
        simp [hunseen t ht]
      simp [validate_data, hfind]
    simp [dummy_model_predict, hval]
  · intro e he
    simp only [dummy_model_predict, if_false, Bool.false_eq_true, ite_false,
      predictions_loc] at he
    by_cases hall : (data.map Prod.fst).all (fun i => (predictions.lookup i).isSome) = true
    · rw [if_pos hall] at he
      exact absurd he (by simp)
    · rw [if_neg hall] at he
      simpa using he.symm
  · intro hall
    simp [dummy_model_predict, predictions_loc, hall]
  · intro hval hall
    simp [dummy_model_predict, predictions_loc, hval, hall]

/-- Witness for C7: one fitted table with rows 0 and 1; the enabled query
on the unseen index 2 raises the unseen-data error, and the query on the
fitted index 0 returns the stored prediction both with validation off and
with validation on. -/
theorem C7_dummy_model_predict_amended_witness :
    (dummy_model_predict [[((0 : ℕ), [(1 : ℚ)]), (1, [2])]] [(0, 5), (1, 6)] true
        [(2, [9])] [] =
      .error
        "Data that has not been seen before passed for inference with static predictions") ∧
    (dummy_model_predict [[((0 : ℕ), [(1 : ℚ)]), (1, [2])]] [(0, 5), (1, 6)] false
        [(0, [1])] [] =
      .ok (([((0 : ℕ), [(1 : ℚ)])].map Prod.fst).map
        (fun i => (([((0 : ℕ), (5 : ℤ)), (1, 6)]).lookup i).getD 0))) ∧
    (dummy_model_predict [[((0 : ℕ), [(1 : ℚ)]), (1, [2])]] [(0, 5), (1, 6)] true
        [(0, [1])] [0] =
      .ok (([((0 : ℕ), [(1 : ℚ)])].map Prod.fst).map
        (fun i => (([((0 : ℕ), (5 : ℤ)), (1, 6)]).lookup i).getD 0))) :=
  ⟨(C7_dummy_model_predict_amended [[(0, [1]), (1, [2])]] [(0, 5), (1, 6)]
      [(2, [9])] []).1 2 [9] (by simp) (by decide),
    (C7_dummy_model_predict_amended [[(0, [1]), (1, [2])]] [(0, 5), (1, 6)]
      [(0, [1])] []).2.2.1 (by decide),
    (C7_dummy_model_predict_amended [[(0, [1]), (1, [2])]] [(0, 5), (1, 6)]
      [(0, [1])] [0]).2.2.2 (by decide) (by decide)⟩

end Deepchecks
